import Mathlib

/-!
Verification development for the brc-plausible-stats repository.

Python strings are modelled as `List Char` (`Str`), Python dicts as
insertion-ordered association lists, and the filesystem-backed taxonomy
cache as an explicit `CacheDir` value.  Every definition below is a direct
shallow embedding of the corresponding function in `src/scripts/`.
-/

/-- Python strings are modelled as lists of characters. -/
abbrev Str := List Char

/-- Convenience: turn a Lean string literal into the `Str` model. -/
def str (s : String) : Str := s.toList

/-- Model of Python `str.lower()` (ASCII case folding, which is all the
repository's pattern tables need). -/
def lowerStr (s : Str) : Str := s.map Char.toLower

/-- `startsWithL p s` holds when `p` is an initial run of `s`
(model of `re.match` against a literal, and of `str.startswith`). -/
def startsWithL : Str → Str → Bool
  | [], _ => true
  | _ :: _, [] => false
  | p :: ps, c :: cs => p = c && startsWithL ps cs

/-- `dropPre p s` returns `some rest` when `s = p ++ rest`, else `none`. -/
def dropPre : Str → Str → Option Str
  | [], s => some s
  | _ :: _, [] => none
  | p :: ps, c :: cs => if p = c then dropPre ps cs else none

/-- `containsSub p s` is the model of Python's `p in s` substring test. -/
def containsSub (p : Str) : Str → Bool
  | [] => p.isEmpty
  | c :: cs => startsWithL p (c :: cs) || containsSub p cs

/-- `hasChar x s` tests whether the character `x` occurs in `s`. -/
def hasChar (x : Char) : Str → Bool
  | [] => false
  | c :: cs => c = x || hasChar x cs

/-- The communities used for reporting (`taxonomy_cache.py`). -/
inductive Community where
  | Viruses
  | Bacteria
  | Fungi
  | Protists
  | Vectors
  | Hosts
  | Helminths
  | Other
deriving DecidableEq

/-- `COMMUNITY_PATTERNS` from `taxonomy_cache.py`, in declaration order
(Python dicts preserve insertion order). -/
def COMMUNITY_PATTERNS : List (Community × List Str) :=
  [ (.Viruses, [str "Viruses"]),
    (.Bacteria, [str "Bacteria"]),
    (.Fungi, [str "Fungi"]),
    (.Protists, [str "Apicomplexa", str "Amoebozoa", str "Euglenozoa",
      str "Heterolobosea", str "Diplomonadida", str "Parabasalia",
      str "Fornicata", str "Metamonada"]),
    (.Vectors, [str "Culicidae", str "Ixodidae", str "Glossinidae",
      str "Psychodidae", str "Simuliidae", str "Reduviidae",
      str "Pulicidae", str "Muscidae"]),
    (.Hosts, [str "Mammalia", str "Aves", str "Amphibia", str "Reptilia",
      str "Actinopterygii"]),
    (.Helminths, [str "Nematoda", str "Platyhelminthes", str "Cestoda",
      str "Trematoda", str "Secernentea", str "Chromadorea"]) ]

/-- The nested loop of `get_community`: walk the pattern table in order and
return the first community one of whose (lower-cased) patterns occurs in the
lower-cased lineage. -/
def findCommunity : List (Community × List Str) → Str → Option Community
  | [], _ => none
  | (comm, pats) :: rest, ll =>
    if pats.any (fun pat => containsSub (lowerStr pat) ll) then some comm
    else findCommunity rest ll

/-- `get_community` from `taxonomy_cache.py`: classify a lineage string into
a community. -/
def get_community (lineage : Str) : Community :=
  if lineage = [] ∨ lineage = str "Unknown" then .Other
  else
    match findCommunity COMMUNITY_PATTERNS (lowerStr lineage) with
    | some comm => comm
    | none => .Other

example : get_community (str "Viruses; Riboviria") = .Viruses := by decide
example : get_community (str "cellular organisms; Bacteria; Proteobacteria") = .Bacteria := by decide
example : get_community (str "Unknown") = .Other := by decide
example : get_community (str "... Mammalia; Nematoda ...") = .Hosts := by decide

/-! ## Field parsing helpers shared by the data-file parsers -/

/-- Digit run to its numeric value (`int` applied to a digit string). -/
def natOfDigits (s : Str) : Nat :=
  s.foldl (fun a c => 10 * a + (c.toNat - 48)) 0

/-- Model of Python `int(s)` on the shapes the data files can contain:
an optional minus sign followed by decimal digits; anything else raises
`ValueError`, modelled by `none`. -/
def pyInt : Str → Option Int
  | '-' :: rest =>
    if !rest.isEmpty && rest.all Char.isDigit then some (-(natOfDigits rest : Int)) else none
  | s =>
    if !s.isEmpty && s.all Char.isDigit then some (natOfDigits s : Int) else none

/-- The scanning loop behind `re.search(r'(\d+)m', s)` (and the `s` variant):
return the value of the first maximal digit run immediately followed by the
marker character.  `cur` carries the digit run in progress. -/
def scanNum (marker : Char) : Str → Option Nat → Option Nat
  | [], _ => none
  | c :: cs, cur =>
    if c.isDigit then scanNum marker cs (some (10 * cur.getD 0 + (c.toNat - 48)))
    else if c = marker then
      match cur with
      | some v => some v
      | none => scanNum marker cs none
    else scanNum marker cs none

/-- First number immediately preceding `marker`, if any. -/
def findNumBefore (marker : Char) (s : Str) : Option Nat := scanNum marker s none

/-- `parse_time` from `analyze_organisms.py`: convert `"7m 38s"`-style
strings to seconds; `""` and `"-"` mean missing. -/
def parse_time (time_str : Str) : Option Nat :=
  if time_str = [] ∨ time_str = str "-" then none
  else some (60 * (findNumBefore 'm' time_str).getD 0 + (findNumBefore 's' time_str).getD 0)

example : parse_time (str "7m 38s") = some 458 := by decide
example : parse_time (str "17s") = some 17 := by decide
example : parse_time (str "-") = none := by decide
example : parse_time (str "1m 0s") = some 60 := by decide

/-! ## URL router (`parse_data_file` in `generate_monthly_summary.py`) -/

/-- `takeSeg s` splits `s` into the run of non-`'/'` characters at its front
and the remainder (which is empty or starts with `'/'`); this is how the
regexes' `[^/]+` group followed by `/` behaves. -/
def takeSeg : Str → Str × Str
  | [] => ([], [])
  | c :: cs =>
    if c = '/' then ([], c :: cs)
    else
      let (a, b) := takeSeg cs
      (c :: a, b)

/-- Model of `re.match(r'^/data/organisms/\d+$', url)` returning the digit
group, from both parsers. -/
def matchOrganism (url : Str) : Option Str :=
  match dropPre (str "/data/organisms/") url with
  | some rest => if !rest.isEmpty && rest.all Char.isDigit then some rest else none
  | none => none

/-- Model of a single-segment regex `^<pre><seg>$` with `seg = [^/]+`
(assembly and priority-pathogen page patterns). -/
def matchSingleSeg (pre : Str) (url : Str) : Option Str :=
  match dropPre pre url with
  | some rest => if !rest.isEmpty && !hasChar '/' rest then some rest else none
  | none => none

/-- Model of `re.match(r'^/data/assemblies/([^/]+)/workflow-(.+)$', url)`
returning both groups.  `.` does not match a newline, hence the `hasChar`
guard on the workflow-name group (input lines are stripped, so they never
contain newlines anyway). -/
def matchWorkflow (url : Str) : Option (Str × Str) :=
  match dropPre (str "/data/assemblies/") url with
  | some rest =>
    let (seg, rem) := takeSeg rest
    if seg.isEmpty then none
    else
      match dropPre (str "/workflow-") rem with
      | some w => if !w.isEmpty && !hasChar '\n' w then some (seg, w) else none
      | none => none
  | none => none

/-- Model of `re.match(r'^/data/assemblies/([^/]+)/workflow-', url)` (no
anchor at the end), used by the second pass of `analyze_organisms.py`. -/
def matchWorkflowPre (url : Str) : Option Str :=
  match dropPre (str "/data/assemblies/") url with
  | some rest =>
    let (seg, rem) := takeSeg rest
    if seg.isEmpty then none
    else
      match dropPre (str "/workflow-") rem with
      | some _ => some seg
      | none => none
  | none => none

/-- Page categories produced by the routing chain of
`generate_monthly_summary.parse_data_file`. -/
inductive PageCategory where
  | Navigation (name : Str)
  | Organism (taxId : Str)
  | Assembly (assemblyId : Str)
  | Workflow (assemblyId : Str) (workflowName : Str)
  | PriorityPathogen (slug : Str)
  | Learn
  | Unclassified
deriving DecidableEq

/-- `high_level_urls` from `generate_monthly_summary.py`. -/
def high_level_urls : List (Str × Str) :=
  [ (str "/", str "Home"),
    (str "/data/organisms", str "Organisms Index"),
    (str "/data/assemblies", str "Assemblies Index"),
    (str "/data/priority-pathogens", str "Priority Pathogens Index"),
    (str "/roadmap", str "Roadmap"),
    (str "/about", str "About"),
    (str "/calendar", str "Calendar") ]

/-- Association-list lookup modelling a Python dict read. -/
def lookupStr {α : Type} (k : Str) : List (Str × α) → Option α
  | [] => none
  | (k', v) :: rest => if k' = k then some v else lookupStr k rest

/-- The `if/elif` routing chain of `generate_monthly_summary.parse_data_file`
(lines 92-124), as a pure function of the URL.  Note that in the source the
plain-assembly regex is tested before the workflow branch; the two patterns
are disjoint (a workflow URL contains a `/` after the assembly id), so the
chain still sends every workflow-shaped URL to the workflow branch. -/
def classifyUrl (url : Str) : PageCategory :=
  match lookupStr url high_level_urls with
  | some name => .Navigation name
  | none =>
    match matchOrganism url with
    | some taxId => .Organism taxId
    | none =>
      match matchSingleSeg (str "/data/assemblies/") url with
      | some assemblyId => .Assembly assemblyId
      | none =>
        if containsSub (str "/workflow-") url then
          match matchWorkflow url with
          | some (assemblyId, w) => .Workflow assemblyId w
          | none => .Unclassified
        else
          match matchSingleSeg (str "/data/priority-pathogens/") url with
          | some slug => .PriorityPathogen slug
          | none =>
            if startsWithL (str "/learn") url then .Learn else .Unclassified

example : classifyUrl (str "/data/organisms/9606") = .Organism (str "9606") := by decide
example : classifyUrl (str "/data/assemblies/GCA_000001_1") = .Assembly (str "GCA_000001_1") := by decide
example : classifyUrl (str "/data/assemblies/GCA_000001_1/workflow-rnaseq-main")
    = .Workflow (str "GCA_000001_1") (str "rnaseq-main") := by decide
example : classifyUrl (str "/") = .Navigation (str "Home") := by decide
example : classifyUrl (str "/misc") = .Unclassified := by decide

/-! ## `parse_data_file` from `generate_monthly_summary.py`

A data file is modelled as the list of its non-header lines, each already
split on tabs (`line.split('\t')`). -/

/-- The `stats` dictionary built by `generate_monthly_summary.parse_data_file`.
`high_level` mirrors the `defaultdict` keyed by page name, as an
insertion-ordered association list of accumulated (visitors, pageviews). -/
structure GenStats where
  high_level : List (Str × Int × Int)
  organism_pages : List (Str × Int × Int)
  assembly_pages : List (Str × Int × Int)
  workflow_pages : List (Str × Str × Int × Int)
  priority_pathogen_pages : List (Str × Int × Int)
  learn_pages : Int × Int
deriving DecidableEq

/-- Add to a `defaultdict(lambda: {'visitors': 0, 'pageviews': 0})` entry. -/
def bumpAssoc (m : List (Str × Int × Int)) (k : Str) (v p : Int) : List (Str × Int × Int) :=
  match m with
  | [] => [(k, v, p)]
  | (k', v', p') :: rest =>
    if k' = k then (k', v' + v, p' + p) :: rest
    else (k', v', p') :: bumpAssoc rest k v p

/-- One iteration of the parsing loop of
`generate_monthly_summary.parse_data_file`: rows with fewer than three
fields or non-integer visitor/pageview fields are skipped, the rest are
routed through the `if/elif` chain. -/
def genParseLine (st : GenStats) (parts : List Str) : GenStats :=
  match parts with
  | url :: vs :: ps :: _ =>
    match pyInt vs, pyInt ps with
    | some visitors, some pageviews =>
      match classifyUrl url with
      | .Navigation name => { st with high_level := bumpAssoc st.high_level name visitors pageviews }
      | .Organism taxId => { st with organism_pages := st.organism_pages ++ [(taxId, visitors, pageviews)] }
      | .Assembly assemblyId => { st with assembly_pages := st.assembly_pages ++ [(assemblyId, visitors, pageviews)] }
      | .Workflow assemblyId w => { st with workflow_pages := st.workflow_pages ++ [(assemblyId, w, visitors, pageviews)] }
      | .PriorityPathogen slug => { st with priority_pathogen_pages := st.priority_pathogen_pages ++ [(slug, visitors, pageviews)] }
      | .Learn => { st with learn_pages := (st.learn_pages.1 + visitors, st.learn_pages.2 + pageviews) }
      | .Unclassified => st
    | _, _ => st
  | _ => st

/-- `parse_data_file` from `generate_monthly_summary.py`. -/
def parse_data_file (lines : List (List Str)) : GenStats :=
  lines.foldl genParseLine ⟨[], [], [], [], [], (0, 0)⟩

/-- Visitor sum over `(id, visitors, pageviews)` triples, as computed by the
`sum(v for _, v, _ in ...)` totals in `generate_monthly_summary.main`. -/
def sumVisitors3 (l : List (Str × Int × Int)) : Int :=
  (l.map fun x => x.2.1).sum

/-- Visitor sum over workflow 4-tuples (`sum(v for _, _, v, _ in ...)`). -/
def sumVisitors4 (l : List (Str × Str × Int × Int)) : Int :=
  (l.map fun x => x.2.2.1).sum

/-! ## `parse_data_file` from `analyze_organisms.py` -/

/-- One parsed page record of `analyze_organisms.parse_data_file` (the
`url`/id/`visitors`/`pageviews`/`time_on_page` dictionaries). -/
structure APage where
  url : Str
  id : Str
  visitors : Int
  pageviews : Int
  time_on_page : Option Nat
deriving DecidableEq

/-- Result of `analyze_organisms.parse_data_file`. -/
structure AStats where
  organism_pages : List APage
  priority_pathogen_pages : List APage
  assembly_pages_all : List APage
  assembly_pages_no_workflow : List APage
  landing_pages : List (Str × Int × Int × Option Nat)
deriving DecidableEq

/-- State of the first pass of `analyze_organisms.parse_data_file`:
the keys of `all_urls` plus the four category lists filled so far. -/
structure APass1 where
  all_urls : List Str
  organism_pages : List APage
  priority_pathogen_pages : List APage
  assembly_pages_all : List APage
  landing_pages : List (Str × Int × Int × Option Nat)

/-- The landing-page list literal of `analyze_organisms.py` (note: unlike
`generate_monthly_summary.py` it has no `/calendar`). -/
def analyzeLandingUrls : List Str :=
  [str "/", str "/data/organisms", str "/data/assemblies",
   str "/data/priority-pathogens", str "/roadmap", str "/about"]

/-- One iteration of the first pass of `analyze_organisms.parse_data_file`:
rows need at least five fields and integer visitors/pageviews; every valid
row lands in `all_urls`, then the `if/elif` chain files it. -/
def analyzeParseLine (st : APass1) (parts : List Str) : APass1 :=
  match parts with
  | url :: vs :: ps :: _ :: ts :: _ =>
    match pyInt vs, pyInt ps with
    | some visitors, some pageviews =>
      let t := parse_time ts
      let st := { st with all_urls := st.all_urls ++ [url] }
      match matchOrganism url with
      | some organismId =>
        { st with organism_pages := st.organism_pages ++ [⟨url, organismId, visitors, pageviews, t⟩] }
      | none =>
        match matchSingleSeg (str "/data/priority-pathogens/") url with
        | some slug =>
          { st with priority_pathogen_pages := st.priority_pathogen_pages ++ [⟨url, slug, visitors, pageviews, t⟩] }
        | none =>
          match matchSingleSeg (str "/data/assemblies/") url with
          | some assemblyId =>
            { st with assembly_pages_all := st.assembly_pages_all ++ [⟨url, assemblyId, visitors, pageviews, t⟩] }
          | none =>
            if analyzeLandingUrls.contains url then
              { st with landing_pages := st.landing_pages ++ [(url, visitors, pageviews, t)] }
            else st
    | _, _ => st
  | _ => st

/-- `parse_data_file` from `analyze_organisms.py`: first pass collects the
categories, the second pass collects assembly ids that have a workflow URL
and filters `assembly_pages_all` down to those without one. -/
def parse_data_file_analyze (lines : List (List Str)) : AStats :=
  let p1 := lines.foldl analyzeParseLine ⟨[], [], [], [], []⟩
  let assembliesWithWorkflows : List Str :=
    p1.all_urls.filterMap fun url =>
      if containsSub (str "/workflow-") url then matchWorkflowPre url else none
  let noWf := p1.assembly_pages_all.filter fun page =>
    !assembliesWithWorkflows.contains page.id
  ⟨p1.organism_pages, p1.priority_pathogen_pages, p1.assembly_pages_all, noWf, p1.landing_pages⟩

/-! ## Taxonomy cache store (`taxonomy_cache.py` / `fetch_taxonomy.py`)

Cache JSON files are modelled as stored `Snapshot` values (JSON
serialization of these records is faithful), a cache directory as the map
from file name to content together with the target of the `latest.json`
symlink. -/

/-- A taxonomy cache entry (`{'name':…, 'lineage':…, 'fetched_at':…,
'error'?:…}`). -/
structure TaxEntry where
  name : Str
  lineage : Str
  fetched_at : Str
  error : Option Str
deriving DecidableEq

/-- An assembly cache entry; `tax_id` is `None` or a (possibly empty)
string. -/
structure AsmEntry where
  tax_id : Option Str
  name : Str
  lineage : Str
  fetched_at : Str
  error : Option Str
deriving DecidableEq

/-- The versioned cache snapshot dictionary of `fetch_taxonomy.py`. -/
structure Snapshot where
  version : Option Str
  created : Option Str
  source_data_hash : Option Str
  taxonomy : List (Str × TaxEntry)
  assembly : List (Str × AsmEntry)
deriving DecidableEq

/-- The empty snapshot returned by `fetch_taxonomy.load_cache` when nothing
exists on disk. -/
def emptySnapshot : Snapshot := ⟨none, none, none, [], []⟩

/-- A cache directory: named snapshot files plus the resolution of the
`latest.json` symlink (`none` when `latest.json` does not exist). -/
structure CacheDir where
  files : List (Str × Snapshot)
  latest : Option Str

/-- Write (create or overwrite) a file in the directory map. -/
def setFile (files : List (Str × Snapshot)) (k : Str) (v : Snapshot) :
    List (Str × Snapshot) :=
  match files with
  | [] => [(k, v)]
  | (k', v') :: rest =>
    if k' = k then (k, v) :: rest else (k', v') :: setFile rest k v

/-- The file name `cache_<version>.json`. -/
def cacheFileName (version : Str) : Str :=
  str "cache_" ++ version ++ str ".json"

/-- Lexicographic string comparison (Python's `<` on `str`), used by the
`sorted(..., reverse=True)` fallback of
`taxonomy_cache.get_latest_cache_path`. -/
def strLt : Str → Str → Bool
  | [], [] => false
  | [], _ :: _ => true
  | _ :: _, [] => false
  | a :: as_, b :: bs => if a = b then strLt as_ bs else decide (a < b)

/-- `endsWithL suf s` tests whether `suf` is a final run of `s`. -/
def endsWithL (suf s : Str) : Bool := startsWithL suf.reverse s.reverse

/-- `taxonomy_cache.get_latest_cache_path`: prefer the `latest.json`
symlink; otherwise fall back to the lexicographically greatest
`cache_*.json` file name. -/
def get_latest_cache_path (dir : CacheDir) : Option Str :=
  match dir.latest with
  | some f => some f
  | none =>
    let cands := dir.files.map Prod.fst |>.filter fun n =>
      startsWithL (str "cache_") n && endsWithL (str ".json") n
    match cands with
    | [] => none
    | c :: cs => some (cs.foldl (fun best n => if strLt best n then n else best) c)

/-- `taxonomy_cache.load_cache`: returns the pair of taxonomy and assembly
maps, or empty maps when no cache file exists. -/
def load_cache (dir : CacheDir) (version : Option Str) :
    List (Str × TaxEntry) × List (Str × AsmEntry) :=
  let cacheFile : Option Str :=
    match version with
    | some v => some (cacheFileName v)
    | none => get_latest_cache_path dir
  match cacheFile with
  | none => ([], [])
  | some f =>
    match lookupStr f dir.files with
    | none => ([], [])
    | some data => (data.taxonomy, data.assembly)

/-- `fetch_taxonomy.get_latest_cache_path`: only the `latest.json` symlink,
no glob fallback. -/
def ft_get_latest_cache_path (dir : CacheDir) : Option Str := dir.latest

/-- `fetch_taxonomy.load_cache`: loads a full snapshot from a path, or the
empty snapshot when the path is `None` or the file is missing.  (The
legacy flat-format branch reads files written before the snapshot schema
and is not reachable for snapshots written by `save_cache`.) -/
def ft_load_cache (dir : CacheDir) (cache_path : Option Str) : Snapshot :=
  match cache_path with
  | none => emptySnapshot
  | some p =>
    match lookupStr p dir.files with
    | none => emptySnapshot
    | some data => data

/-- `fetch_taxonomy.save_cache`: stamp the snapshot with a version (derived
from the current time when not given) and creation time, write it to
`cache_<version>.json`, and repoint `latest.json` at that file. -/
def save_cache (cache_data : Snapshot) (dir : CacheDir) (version : Option Str)
    (nowVersion nowIso : Str) : CacheDir :=
  let v := version.getD nowVersion
  let snap := { cache_data with version := some v, created := some nowIso }
  let f := cacheFileName v
  { files := setFile dir.files f snap, latest := some f }

/-- `fetch_taxonomy.fill_assembly_lineages` applied to one assembly entry:
copy the taxonomy lineage over when `tax_id` is truthy and present. -/
def fillEntry (taxonomy : List (Str × TaxEntry)) (e : AsmEntry) : AsmEntry :=
  match e.tax_id with
  | some t =>
    if t = [] then e
    else
      match lookupStr t taxonomy with
      | some te => { e with lineage := te.lineage }
      | none => e
  | none => e

/-- `fetch_taxonomy.fill_assembly_lineages`. -/
def fill_assembly_lineages (cache_data : Snapshot) : Snapshot :=
  { cache_data with
    assembly := cache_data.assembly.map fun kv => (kv.1, fillEntry cache_data.taxonomy kv.2) }

/-! ## External taxonomy resolvers (`fetch_taxonomy.py`)

The external request is an input: `Except err response` where `.error e`
models any exception raised inside the `try` block (timeouts from
`subprocess.run`, `json.loads` failures, …) and `.ok` models the fetched
response body. -/

/-- The scanning loop of `re.search(r'<Tag>([^<]+)</Tag>', xml)`: find the
first opening tag followed by a nonempty run of non-`'<'` characters and
the closing tag; on failure at one position, resume the search one
character later. -/
def searchTag (op cl : Str) : Str → Option Str
  | [] => none
  | c :: cs =>
    match dropPre op (c :: cs) with
    | some rest =>
      let run := rest.takeWhile fun x => x ≠ '<'
      let rest' := rest.dropWhile fun x => x ≠ '<'
      if !run.isEmpty && startsWithL cl rest' then some run
      else searchTag op cl cs
    | none => searchTag op cl cs

/-- `fetch_taxonomy.fetch_taxonomy_lineage` (resolve_taxon): parse
`<ScientificName>` and `<Lineage>` out of the XML body, defaulting to
`"Unknown"`; an exception yields the `"Unknown"` placeholder with the
error message attached. -/
def fetch_taxonomy_lineage (outcome : Except Str Str) (now : Str) : TaxEntry :=
  match outcome with
  | .ok xml =>
    { name := (searchTag (str "<ScientificName>") (str "</ScientificName>") xml).getD (str "Unknown")
      lineage := (searchTag (str "<Lineage>") (str "</Lineage>") xml).getD (str "Unknown")
      fetched_at := now
      error := none }
  | .error e =>
    { name := str "Unknown", lineage := str "Unknown", fetched_at := now, error := some e }

/-- The `organism` sub-object of one report of the NCBI datasets JSON. -/
structure AsmOrganism where
  tax_id : Option Nat
  organism_name : Option Str
deriving DecidableEq

/-- One report of the NCBI datasets JSON response. -/
structure AsmReport where
  organism : Option AsmOrganism
deriving DecidableEq

/-- `str(org_info.get('tax_id', ''))`. -/
def pyStrOfTaxId : Option Nat → Str
  | some n => str (Nat.repr n)
  | none => []

/-- `fetch_taxonomy.fetch_assembly_taxonomy` (resolve_assembly): take the
first report's organism, defaulting missing fields; no reports yields an
`"Unknown"` placeholder without an error note; an exception (including a
`json.loads` failure on a malformed body) yields the placeholder with the
error message attached. -/
def fetch_assembly_taxonomy (outcome : Except Str (List AsmReport)) (now : Str) : AsmEntry :=
  match outcome with
  | .ok reports =>
    match reports with
    | r :: _ =>
      let org := r.organism.getD ⟨none, none⟩
      { tax_id := some (pyStrOfTaxId org.tax_id)
        name := org.organism_name.getD (str "Unknown")
        lineage := str "Unknown"
        fetched_at := now
        error := none }
    | [] =>
      { tax_id := none, name := str "Unknown", lineage := str "Unknown",
        fetched_at := now, error := none }
  | .error e =>
    { tax_id := none, name := str "Unknown", lineage := str "Unknown",
      fetched_at := now, error := some e }

/-! ## Cache lookup helpers (`taxonomy_cache.py`) -/

/-- Python truthiness of an optional string (`None` and `''` are falsy). -/
def truthy : Option Str → Bool
  | some s => !s.isEmpty
  | none => false

/-- The string value of an optional argument (only read under `truthy`). -/
def optVal : Option Str → Str
  | some s => s
  | none => []

/-- `taxonomy_cache.get_organism_name` with the caches passed explicitly
(the `None`-default branch merely loads them from disk first). -/
def get_organism_name (tax_id assembly_id : Option Str)
    (taxonomy_cache : List (Str × TaxEntry)) (assembly_cache : List (Str × AsmEntry)) : Str :=
  match (if truthy tax_id then lookupStr (optVal tax_id) taxonomy_cache else none) with
  | some e => e.name
  | none =>
    match (if truthy assembly_id then lookupStr (optVal assembly_id) assembly_cache else none) with
    | some e => e.name
    | none => str "Unknown"

/-- `taxonomy_cache.get_lineage`, same shape as `get_organism_name`. -/
def get_lineage (tax_id assembly_id : Option Str)
    (taxonomy_cache : List (Str × TaxEntry)) (assembly_cache : List (Str × AsmEntry)) : Str :=
  match (if truthy tax_id then lookupStr (optVal tax_id) taxonomy_cache else none) with
  | some e => e.lineage
  | none =>
    match (if truthy assembly_id then lookupStr (optVal assembly_id) assembly_cache else none) with
    | some e => e.lineage
    | none => str "Unknown"

/-! ## Aggregator (`aggregate_by_community` in `generate_monthly_summary.py`) -/

/-- A `community_stats` bucket: `defaultdict(lambda: {'count': 0,
'visitors': 0, 'pageviews': 0, 'unique_ids': set()})`. -/
structure Bucket where
  count : Nat
  visitors : Int
  pageviews : Int
  unique_ids : Finset Str

/-- The items fed to `aggregate_by_community`: 3-tuples for organism and
assembly pages, 4-tuples for workflow pages. -/
inductive AggItem where
  | three (id : Str) (visitors pageviews : Int)
  | four (id : Str) (extra : Str) (visitors pageviews : Int)
deriving DecidableEq

/-- The tuple destructuring at the top of the loop body. -/
def itemParts : AggItem → Str × Int × Int
  | .three i v p => (i, v, p)
  | .four i _ v p => (i, v, p)

/-- The community an item is filed under: classify the lineage returned by
`get_taxonomy_func` for the item's id. -/
def itemCommunity (get_taxonomy_func : Str → Option Str × Str × Str)
    (item : AggItem) : Community :=
  get_community (get_taxonomy_func (itemParts item).1).2.2

/-- One iteration of the `aggregate_by_community` loop: bump the bucket of
the item's community (count, visitor and pageview sums, id set). -/
def aggStep (get_taxonomy_func : Str → Option Str × Str × Str)
    (m : Community → Bucket) (item : AggItem) : Community → Bucket :=
  fun c =>
    if c = itemCommunity get_taxonomy_func item then
      { count := (m c).count + 1
        visitors := (m c).visitors + (itemParts item).2.1
        pageviews := (m c).pageviews + (itemParts item).2.2
        unique_ids := insert (itemParts item).1 (m c).unique_ids }
    else m c

/-- `aggregate_by_community` from `generate_monthly_summary.py`, as the
total bucket map (the `defaultdict` read through `.get(comm, zero)`). -/
def aggregate_by_community (get_taxonomy_func : Str → Option Str × Str × Str)
    (pages : List AggItem) : Community → Bucket :=
  pages.foldl (aggStep get_taxonomy_func) fun _ => ⟨0, 0, 0, ∅⟩

/-! ## Theorems -/

/-- The three-row input of the C1 scenario, split on tabs. -/
def c1rows : List (List Str) :=
  [ [str "/data/organisms/9606", str "100", str "150", str "-", str "2m 30s"],
    [str "/data/assemblies/GCA_000001_1", str "40", str "60", str "10%", str "45s"],
    [str "/data/assemblies/GCA_000001_1/workflow-rnaseq-main", str "10", str "12", str "-", str "1m 0s"] ]

/-- C1: on the three-row scenario input, parsing and aggregating yields an
organism bucket with count 1 and visitors 100, an
assembly-without-workflow bucket with count 0 (the only assembly also has a
workflow visit), and a workflow bucket with count 1 and visitors 10. -/
theorem c1_scenario_buckets :
    (parse_data_file c1rows).organism_pages.length = 1 ∧
    sumVisitors3 (parse_data_file c1rows).organism_pages = 100 ∧
    (parse_data_file_analyze c1rows).assembly_pages_no_workflow.length = 0 ∧
    (parse_data_file c1rows).workflow_pages.length = 1 ∧
    sumVisitors4 (parse_data_file c1rows).workflow_pages = 10 := by
  decide

/-- Modelled from the spec's words (section 4.2), for comparison with
`get_community`: if the lineage is empty or the literal `"Unknown"`
return `Other`; otherwise return the first community in declared order one
of whose lower-cased patterns is a substring of the lower-cased lineage,
and `Other` when none matches. -/
def classifySpec (lineage : Str) : Community :=
  if lineage = [] ∨ lineage = str "Unknown" then .Other
  else
    match COMMUNITY_PATTERNS.find? (fun cp =>
        cp.2.any fun pat => containsSub (lowerStr pat) (lowerStr lineage)) with
    | some cp => cp.1
    | none => .Other

theorem findCommunity_eq_find (ps : List (Community × List Str)) (ll : Str) :
    findCommunity ps ll =
      (ps.find? fun cp => cp.2.any fun pat => containsSub (lowerStr pat) ll).map Prod.fst := by
  induction ps with
  | nil => rfl
  | cons hd tl ih =>
    obtain ⟨comm, pats⟩ := hd
    by_cases h : (pats.any fun pat => containsSub (lowerStr pat) ll) = true
    · simp [findCommunity, List.find?, h]
    · simp only [Bool.not_eq_true] at h
      simp [findCommunity, List.find?, h, ih]

/-- C2: the community classifier agrees, on every lineage string, with the
spec's description: `Other` for empty or literal-`"Unknown"` input,
otherwise the first community in declared order with a lower-cased
substring match, `Other` when no pattern matches (so a lineage matching
several communities resolves to the community declared first). -/
theorem c2_classifier_refines_spec (lineage : Str) :
    get_community lineage = classifySpec lineage := by
  unfold get_community classifySpec
  split
  · rfl
  · rw [findCommunity_eq_find]
    cases COMMUNITY_PATTERNS.find? fun cp =>
        cp.2.any fun pat => containsSub (lowerStr pat) (lowerStr lineage) <;> rfl

theorem fillEntry_idem (taxonomy : List (Str × TaxEntry)) (e : AsmEntry) :
    fillEntry taxonomy (fillEntry taxonomy e) = fillEntry taxonomy e := by
  cases ht : e.tax_id with
  | none => simp [fillEntry, ht]
  | some t =>
    by_cases h0 : t = []
    · simp [fillEntry, ht, h0]
    · cases hl : lookupStr t taxonomy with
      | none => simp [fillEntry, ht, h0, hl]
      | some te => simp [fillEntry, ht, h0, hl]

/-- C7: the lineage fill-in pass is idempotent — with the taxonomy map
unchanged (which `fill_assembly_lineages` never touches), running it twice
gives the same snapshot, in particular the same assembly lineages, as
running it once. -/
theorem c7_fill_idempotent (cache_data : Snapshot) :
    fill_assembly_lineages (fill_assembly_lineages cache_data) =
      fill_assembly_lineages cache_data := by
  unfold fill_assembly_lineages
  simp only [List.map_map]
  congr 1
  apply List.map_congr_left
  intro kv _
  simp [Function.comp, fillEntry_idem]

/-- The classifier only reads the lower-cased lineage: the empty and
literal-`"Unknown"` special cases coincide with what the pattern match
yields on their lower-casings. -/
theorem get_community_eq_on_lower (lineage : Str) :
    get_community lineage =
      (match findCommunity COMMUNITY_PATTERNS (lowerStr lineage) with
       | some comm => comm
       | none => .Other) := by
  unfold get_community
  split
  · rename_i hc
    rcases hc with hc | hc <;> subst hc <;> decide
  · rfl

/-- C9: the community classifier is case-insensitive — two lineage strings
with the same lower-casing classify identically. -/
theorem c9_classify_case_insensitive (l1 l2 : Str) (h : lowerStr l1 = lowerStr l2) :
    get_community l1 = get_community l2 := by
  rw [get_community_eq_on_lower, get_community_eq_on_lower, h]

/-- C9 witness: the spec's particular instance. -/
theorem c9_classify_case_insensitive_witness :
    get_community (str "VIRUSES; Riboviria") = get_community (str "viruses; riboviria") :=
  c9_classify_case_insensitive (str "VIRUSES; Riboviria") (str "viruses; riboviria") (by decide)

/-- C10: in `get_organism_name` and `get_lineage`, a truthy `tax_id` found
in the taxonomy map wins — the result is that taxonomy entry's field for
every assembly cache (so the assembly map is never consulted) — and when
neither id resolves in its map both helpers return the literal `"Unknown"`
instead of failing. -/
theorem c10_lookup_precedence_and_fallback (tax_id assembly_id : Option Str)
    (taxonomy_cache : List (Str × TaxEntry)) (assembly_cache : List (Str × AsmEntry)) :
    (∀ te, truthy tax_id = true → lookupStr (optVal tax_id) taxonomy_cache = some te →
      get_organism_name tax_id assembly_id taxonomy_cache assembly_cache = te.name ∧
      get_lineage tax_id assembly_id taxonomy_cache assembly_cache = te.lineage) ∧
    ((if truthy tax_id then lookupStr (optVal tax_id) taxonomy_cache else none) = none →
      (if truthy assembly_id then lookupStr (optVal assembly_id) assembly_cache else none) = none →
      get_organism_name tax_id assembly_id taxonomy_cache assembly_cache = str "Unknown" ∧
      get_lineage tax_id assembly_id taxonomy_cache assembly_cache = str "Unknown") := by
  constructor
  · intro te htruthy hfound
    unfold get_organism_name get_lineage
    rw [if_pos htruthy, hfound]
    exact ⟨rfl, rfl⟩
  · intro h1 h2
    unfold get_organism_name get_lineage
    rw [h1, h2]
    exact ⟨rfl, rfl⟩

/-- Taxonomy cache used by the C10 witness. -/
def c10taxonomy : List (Str × TaxEntry) :=
  [(str "9606", ⟨str "Homo sapiens", str "cellular organisms; ...; Mammalia", str "t0", none⟩)]

/-- Assembly cache used by the C10 witness. -/
def c10assembly : List (Str × AsmEntry) :=
  [(str "GCA_000001_1", ⟨some (str "9606"), str "assembly name", str "asm lineage", str "t0", none⟩)]

/-- C10 witness: with both ids given the taxonomy entry wins, and with no
ids both helpers fall back to `"Unknown"`. -/
theorem c10_lookup_precedence_and_fallback_witness :
    get_organism_name (some (str "9606")) (some (str "GCA_000001_1")) c10taxonomy c10assembly
      = str "Homo sapiens" ∧
    get_organism_name none none c10taxonomy c10assembly = str "Unknown" :=
  ⟨((c10_lookup_precedence_and_fallback (some (str "9606")) (some (str "GCA_000001_1"))
      c10taxonomy c10assembly).1
      ⟨str "Homo sapiens", str "cellular organisms; ...; Mammalia", str "t0", none⟩
      (by decide) (by decide)).1,
   ((c10_lookup_precedence_and_fallback none none c10taxonomy c10assembly).2
      (by decide) (by decide)).1⟩

/-- C5 counterexample: a malformed (non-XML) response body — as returned
for a non-success HTTP status — makes `fetch_taxonomy_lineage` produce the
`"Unknown"` placeholder entry WITHOUT any attached error note, so "on any
failure … with an attached error note" is false as stated. -/
theorem c5_counterexample_no_error_note :
    (fetch_taxonomy_lineage (.ok (str "<html>Bad Gateway</html>")) (str "2026-01-01")).name
        = str "Unknown" ∧
    (fetch_taxonomy_lineage (.ok (str "<html>Bad Gateway</html>")) (str "2026-01-01")).lineage
        = str "Unknown" ∧
    (fetch_taxonomy_lineage (.ok (str "<html>Bad Gateway</html>")) (str "2026-01-01")).error
        = none := by
  decide

/-- C5 (amended): the resolvers are total — every outcome yields a
placeholder entry rather than a propagated exception.  A raised failure
(timeout, or for the assembly endpoint also a malformed JSON body) yields
`"Unknown"` name/lineage with the error note attached; a response that is
merely unparseable (or has no reports) yields the `"Unknown"` placeholder
with NO error note. -/
theorem c5_amended_resolvers_degrade (e now : Str) :
    fetch_taxonomy_lineage (.error e) now
        = ⟨str "Unknown", str "Unknown", now, some e⟩ ∧
    fetch_assembly_taxonomy (.error e) now
        = ⟨none, str "Unknown", str "Unknown", now, some e⟩ ∧
    (∀ xml, (fetch_taxonomy_lineage (.ok xml) now).error = none) ∧
    (∀ reports, (fetch_assembly_taxonomy (.ok reports) now).error = none) := by
  refine ⟨rfl, rfl, fun xml => rfl, fun reports => ?_⟩
  cases reports <;> rfl

/-- C6: when no cache file exists (no files, no `latest` pointer), both
load paths return the empty state — empty taxonomy/assembly maps from
`taxonomy_cache.load_cache` and the empty snapshot (null version) from
`fetch_taxonomy.load_cache` — with or without a version argument, and
never raise. -/
theorem c6_load_missing_cache_is_empty (dir : CacheDir) (v : Str)
    (hfiles : dir.files = []) (hlatest : dir.latest = none) :
    load_cache dir none = ([], []) ∧
    load_cache dir (some v) = ([], []) ∧
    ft_load_cache dir (ft_get_latest_cache_path dir) = emptySnapshot ∧
    ft_load_cache dir (some (cacheFileName v)) = emptySnapshot := by
  obtain ⟨files, latest⟩ := dir
  simp only at hfiles hlatest
  subst hfiles hlatest
  refine ⟨rfl, ?_, rfl, rfl⟩
  simp [load_cache, lookupStr]

/-- C6 witness: the empty cache directory with a concrete version string. -/
theorem c6_load_missing_cache_is_empty_witness :
    load_cache ⟨[], none⟩ none = ([], []) ∧
    load_cache ⟨[], none⟩ (some (str "2025-12-22_11-55-09")) = ([], []) ∧
    ft_load_cache ⟨[], none⟩ (ft_get_latest_cache_path ⟨[], none⟩) = emptySnapshot ∧
    ft_load_cache ⟨[], none⟩ (some (cacheFileName (str "2025-12-22_11-55-09"))) = emptySnapshot :=
  c6_load_missing_cache_is_empty ⟨[], none⟩ (str "2025-12-22_11-55-09") rfl rfl

theorem lookupStr_setFile (files : List (Str × Snapshot)) (k : Str) (v : Snapshot) :
    lookupStr k (setFile files k v) = some v := by
  induction files with
  | nil => simp [setFile, lookupStr]
  | cons hd tl ih =>
    obtain ⟨k', v'⟩ := hd
    by_cases h : k' = k
    · simp [setFile, lookupStr, h]
    · simp [setFile, lookupStr, h, ih]

/-- C4: saving a snapshot with `save_cache` (no explicit version) and then
loading with `load_cache` (no version argument, hence through the `latest`
pointer) returns exactly the taxonomy and assembly maps that were saved. -/
theorem c4_save_load_roundtrip (snap : Snapshot) (dir : CacheDir)
    (nowVersion nowIso : Str) :
    load_cache (save_cache snap dir none nowVersion nowIso) none
      = (snap.taxonomy, snap.assembly) := by
  unfold save_cache load_cache get_latest_cache_path
  simp [lookupStr_setFile]


theorem dropPre_some {p s rest : Str} (h : dropPre p s = some rest) : s = p ++ rest := by
  induction p generalizing s with
  | nil =>
    simp only [dropPre, Option.some.injEq] at h
    simp [h]
  | cons a ps ih =>
    cases s with
    | nil => simp [dropPre] at h
    | cons c cs =>
      unfold dropPre at h
      split at h
      · rename_i hac
        subst hac
        simp [ih h]
      · simp at h

theorem takeSeg_append {s a b : Str} (h : takeSeg s = (a, b)) : s = a ++ b := by
  induction s generalizing a b with
  | nil =>
    simp only [takeSeg, Prod.mk.injEq] at h
    obtain ⟨rfl, rfl⟩ := h
    rfl
  | cons c cs ih =>
    unfold takeSeg at h
    split at h
    · obtain ⟨rfl, rfl⟩ := Prod.mk.injEq .. ▸ h
      simp_all
    · cases hts : takeSeg cs with
      | mk ta tb =>
        rw [hts] at h
        obtain ⟨rfl, rfl⟩ := Prod.mk.injEq .. ▸ h
        simp [ih hts]

theorem dropPre_append (p rest : Str) : dropPre p (p ++ rest) = some rest := by
  induction p with
  | nil => rfl
  | cons a ps ih => simp [dropPre, ih]

theorem hasChar_append (x : Char) (a b : Str) :
    hasChar x (a ++ b) = (hasChar x a || hasChar x b) := by
  induction a with
  | nil => simp [hasChar]
  | cons c cs ih => simp [hasChar, ih, Bool.or_assoc]

theorem startsWithL_append (p b : Str) : startsWithL p (p ++ b) = true := by
  induction p with
  | nil => rfl
  | cons a ps ih => simp [startsWithL, ih]

theorem containsSub_of_startsWith {p s : Str} (h : startsWithL p s = true) :
    containsSub p s = true := by
  cases s with
  | nil =>
    cases p with
    | nil => rfl
    | cons a ps => simp [startsWithL] at h
  | cons c cs => simp [containsSub, h]

theorem containsSub_middle (p a b : Str) : containsSub p (a ++ (p ++ b)) = true := by
  induction a with
  | nil => exact containsSub_of_startsWith (startsWithL_append p b)
  | cons c cs ih =>
    simp only [List.cons_append, containsSub, List.append_eq, ih, Bool.or_true]

/-- Inversion of the workflow regex: a successful match decomposes the URL
into the assembly-prefix, a nonempty slash-free segment and a nonempty
workflow name. -/
theorem matchWorkflow_inv {url aid w : Str}
    (h : matchWorkflow url = some (aid, w)) :
    url = str "/data/assemblies/" ++ (aid ++ (str "/workflow-" ++ w)) := by
  unfold matchWorkflow at h
  split at h
  case h_2 => simp at h
  case h_1 rest hd =>
    split at h
    rename_i seg rem hts
    split at h
    · simp at h
    · split at h
      case h_2 => simp at h
      case h_1 w' hw =>
        split at h
        · rename_i hwc
          obtain ⟨rfl, rfl⟩ := Option.some.injEq .. ▸ h
          rw [dropPre_some hd, takeSeg_append hts, dropPre_some hw]
        · simp at h

/-- Workflow-shaped URLs never match the navigation set lookup. -/
theorem lookup_nav_assemblies (rest : Str) :
    lookupStr (str "/data/assemblies/" ++ rest) high_level_urls = none := rfl

/-- Workflow-shaped URLs never match the organism pattern. -/
theorem matchOrganism_assemblies (rest : Str) :
    matchOrganism (str "/data/assemblies/" ++ rest) = none := rfl

/-- C3: every URL of the workflow shape — which is a sub-path of the plain
assembly pattern's URL space `/data/assemblies/…` — is routed to the
`Workflow` category with the extracted assembly id and workflow name, and
never to the `Assembly` category.  (No URL can simultaneously match the
plain-assembly regex `^/data/assemblies/[^/]+$` literally, since a workflow
URL always contains a further `/`; the theorem shows the workflow pattern
wins over the assembly pattern on exactly that shared URL sub-space.) -/
theorem c3_workflow_beats_assembly (url assemblyId workflowName : Str)
    (h : matchWorkflow url = some (assemblyId, workflowName)) :
    classifyUrl url = .Workflow assemblyId workflowName ∧
    ∀ a, classifyUrl url ≠ .Assembly a := by
  have hurl := matchWorkflow_inv h
  have hslashMid : hasChar '/' (str "/workflow-") = true := by decide
  have hmain : classifyUrl url = .Workflow assemblyId workflowName := by
    unfold classifyUrl
    rw [hurl, lookup_nav_assemblies, matchOrganism_assemblies]
    rw [← hurl]
    have hasm : matchSingleSeg (str "/data/assemblies/") url = none := by
      unfold matchSingleSeg
      rw [hurl, dropPre_append]
      simp [hasChar_append, hslashMid]
    have hcontains : containsSub (str "/workflow-") url = true := by
      rw [hurl, ← List.append_assoc]
      exact containsSub_middle _ _ _
    rw [hasm, if_pos hcontains, h]
  refine ⟨hmain, fun a hcontra => ?_⟩
  rw [hmain] at hcontra
  simp at hcontra

/-- C3 witness: a concrete workflow URL. -/
theorem c3_workflow_beats_assembly_witness :
    classifyUrl (str "/data/assemblies/GCA_000001_1/workflow-rnaseq-main")
      = .Workflow (str "GCA_000001_1") (str "rnaseq-main") :=
  (c3_workflow_beats_assembly (str "/data/assemblies/GCA_000001_1/workflow-rnaseq-main")
    (str "GCA_000001_1") (str "rnaseq-main") (by decide)).1

/-- Two loop iterations of `aggregate_by_community` commute: each bumps
only its own item's community bucket, and bumps commute field-wise. -/
theorem aggStep_comm (gt : Str → Option Str × Str × Str)
    (m : Community → Bucket) (x y : AggItem) :
    aggStep gt (aggStep gt m x) y = aggStep gt (aggStep gt m y) x := by
  funext c
  unfold aggStep
  by_cases hx : c = itemCommunity gt x
  · by_cases hy : c = itemCommunity gt y
    · simp only [if_pos hx, if_pos hy, Bucket.mk.injEq]
      exact ⟨trivial, by omega, by omega, Finset.Insert.comm _ _ _⟩
    · simp only [if_pos hx, if_neg hy]
  · by_cases hy : c = itemCommunity gt y
    · simp only [if_pos hy, if_neg hx]
    · simp only [if_neg hx, if_neg hy]

/-- Folding `aggregate_by_community`'s loop body over a permuted row list
gives the same bucket map, from any starting state. -/
theorem foldl_aggStep_perm (gt : Str → Option Str × Str × Str)
    {l1 l2 : List AggItem} (h : l1.Perm l2) :
    ∀ m, l1.foldl (aggStep gt) m = l2.foldl (aggStep gt) m := by
  induction h with
  | nil => intro m; rfl
  | cons x _ ih => intro m; simp only [List.foldl_cons, ih]
  | swap x y l => intro m; simp only [List.foldl_cons, aggStep_comm]
  | trans _ _ ih1 ih2 => intro m; rw [ih1, ih2]

/-- C8: aggregation is order-independent — permuting the input rows leaves
every community bucket's count, visitor sum and pageview sum unchanged. -/
theorem c8_aggregate_perm_invariant (gt : Str → Option Str × Str × Str)
    (l1 l2 : List AggItem) (h : l1.Perm l2) (c : Community) :
    (aggregate_by_community gt l1 c).count = (aggregate_by_community gt l2 c).count ∧
    (aggregate_by_community gt l1 c).visitors = (aggregate_by_community gt l2 c).visitors ∧
    (aggregate_by_community gt l1 c).pageviews = (aggregate_by_community gt l2 c).pageviews := by
  unfold aggregate_by_community
  rw [foldl_aggStep_perm gt h]
  exact ⟨rfl, rfl, rfl⟩

/-- The taxonomy function used by the C8 witness (everything unknown). -/
def c8gt : Str → Option Str × Str × Str :=
  fun _ => (none, str "Unknown", str "Unknown")

/-- C8 witness: swapping two concrete rows leaves the `Other` bucket's
count and sums unchanged. -/
theorem c8_aggregate_perm_invariant_witness :
    (aggregate_by_community c8gt
        [.three (str "9606") 5 7, .four (str "GCA_1") (str "wf") 2 3] .Other).count
      = (aggregate_by_community c8gt
        [.four (str "GCA_1") (str "wf") 2 3, .three (str "9606") 5 7] .Other).count ∧
    (aggregate_by_community c8gt
        [.three (str "9606") 5 7, .four (str "GCA_1") (str "wf") 2 3] .Other).visitors
      = (aggregate_by_community c8gt
        [.four (str "GCA_1") (str "wf") 2 3, .three (str "9606") 5 7] .Other).visitors ∧
    (aggregate_by_community c8gt
        [.three (str "9606") 5 7, .four (str "GCA_1") (str "wf") 2 3] .Other).pageviews
      = (aggregate_by_community c8gt
        [.four (str "GCA_1") (str "wf") 2 3, .three (str "9606") 5 7] .Other).pageviews :=
  c8_aggregate_perm_invariant c8gt
    [AggItem.three (str "9606") 5 7, AggItem.four (str "GCA_1") (str "wf") 2 3]
    [AggItem.four (str "GCA_1") (str "wf") 2 3, AggItem.three (str "9606") 5 7]
    (List.Perm.swap (AggItem.four (str "GCA_1") (str "wf") 2 3) (AggItem.three (str "9606") 5 7) [])
    Community.Other
